import Mathlib

/-!
Verification of the `pykaniko` wrapper (`kaniko/kaniko.py`) against its
natural-language specification.

The development shallowly embeds the Python module: the `Kaniko` attribute bag
becomes a Lean structure, each `_get_shell_part_*` handler becomes a
token-producing function, `configure`/`shell_command`/`_parse_logs`/
`_make_config`/`_write_config`/`build` become executable Lean functions, and
the subprocess is an oracle (exit code and raw combined output are inputs).
-/

/- `class KanikoSnapshotMode(Enum)`: members `full`, `time`. -/
inductive KanikoSnapshotMode where
  | full
  | time
deriving DecidableEq, Repr

/- `.value` of the enum member, e.g. `KanikoSnapshotMode.full.value == 'full'`. -/
def KanikoSnapshotMode.value : KanikoSnapshotMode → String
  | .full => "full"
  | .time => "time"

/- `class KanikoVerbosity(Enum)`: members `panic`, `fatal`, `error`, `warn`,
`info`, `debug`. -/
inductive KanikoVerbosity where
  | panic
  | fatal
  | error
  | warn
  | info
  | debug
deriving DecidableEq, Repr

def KanikoVerbosity.value : KanikoVerbosity → String
  | .panic => "panic"
  | .fatal => "fatal"
  | .error => "error"
  | .warn => "warn"
  | .info => "info"
  | .debug => "debug"

/- The `destination` attribute is declared `Optional[str]` but
`_get_shell_part_destination` also accepts a list (`isinstance(self.destination,
list)`), so at runtime it ranges over `None`, a string, or a list of strings. -/
inductive PyDestination where
  | dnone
  | scalar (v : String)
  | dlist (l : List String)
deriving DecidableEq, Repr

/- The `Kaniko` attribute bag: the 28 public data attributes of the class, with
the Python defaults reproduced by `kanikoDefault` below.  `extra` models
dynamically added instance attributes (Python objects accept `setattr` with any
name); the class itself starts with none, and `configure` never adds any. -/
structure Kaniko where
  docker_registry_uri : Option String
  registry_username : Option String
  registry_password : Option String
  build_args : List String
  context : Option String
  cache : Bool
  cache_dir : Option String
  cache_repo : Option String
  destination : PyDestination
  digest_file : Option String
  dockerfile : Option String
  force : Bool
  oci_layout_path : Option String
  insecure_registry : List String
  skip_tls_verify_registry : List String
  cleanup : Bool
  insecure : Bool
  insecure_pull : Bool
  no_push : Bool
  reproducible : Bool
  single_snapshot : Bool
  skip_tls_verify : Bool
  skip_tls_verify_pull : Bool
  snapshot_mode : Option KanikoSnapshotMode
  target : Option String
  tar_path : Option String
  verbosity : Option KanikoVerbosity
  kaniko_path : String
  extra : List String
deriving DecidableEq, Repr

/- A fresh `Kaniko()` object: all class-level defaults. -/
def kanikoDefault : Kaniko where
  docker_registry_uri := none
  registry_username := none
  registry_password := none
  build_args := []
  context := none
  cache := false
  cache_dir := none
  cache_repo := none
  destination := .dnone
  digest_file := none
  dockerfile := none
  force := false
  oci_layout_path := none
  insecure_registry := []
  skip_tls_verify_registry := []
  cleanup := false
  insecure := false
  insecure_pull := false
  no_push := false
  reproducible := false
  single_snapshot := false
  skip_tls_verify := false
  skip_tls_verify_pull := false
  snapshot_mode := none
  target := none
  tar_path := none
  verbosity := none
  kaniko_path := "/kaniko"
  extra := []

/- `for arg in self.xs: command.append(f'--flag={arg}')` — one token per list
element, in list order; an empty list contributes nothing. -/
def listFlagTokens (flag : String) (l : List String) : List String :=
  l.map (fun arg => flag ++ arg)

/- `if self.b: command.append('--flag')` on a `bool` attribute. -/
def boolFlagToken (flag : String) (b : Bool) : List String :=
  if b then [flag] else []

/- `if self.v: command.append(f'--flag={self.v}')` on an `Optional[str]`
attribute.  Python truthiness: `None` and the empty string are both falsy, so
no token is emitted for either. -/
def optStrFlagToken (flag : String) (o : Option String) : List String :=
  match o with
  | none => []
  | some v => if v = "" then [] else [flag ++ v]

/- `if self.e: command.append(f'--flag={self.e.value}')` on an optional enum
attribute, applied to the already-rendered `.value`; enum members are always
truthy, so a token is emitted whenever the attribute is set. -/
def optEnumFlagToken (flag : String) (o : Option String) : List String :=
  match o with
  | none => []
  | some v => [flag ++ v]

/- `_get_shell_part_destination`: `if self.destination:` (truthiness: `None`,
`''` and `[]` are all falsy), then `isinstance(self.destination, list)`
chooses between one token per element and a single token. -/
def destinationTokens (d : PyDestination) : List String :=
  match d with
  | .dnone => []
  | .scalar v => if v = "" then [] else ["--destination=" ++ v]
  | .dlist l => if l = [] then [] else listFlagTokens "--destination=" l

namespace Kaniko

def get_shell_part_build_args (s : Kaniko) : List String :=
  listFlagTokens "--build-arg=" s.build_args

def get_shell_part_cache (s : Kaniko) : List String :=
  boolFlagToken "--cache" s.cache

def get_shell_part_cache_dir (s : Kaniko) : List String :=
  optStrFlagToken "--cache-dir=" s.cache_dir

def get_shell_part_cache_repo (s : Kaniko) : List String :=
  optStrFlagToken "--cache-repo=" s.cache_repo

def get_shell_part_cleanup (s : Kaniko) : List String :=
  boolFlagToken "--cleanup" s.cleanup

def get_shell_part_context (s : Kaniko) : List String :=
  optStrFlagToken "--context=" s.context

def get_shell_part_destination (s : Kaniko) : List String :=
  destinationTokens s.destination

def get_shell_part_digest_file (s : Kaniko) : List String :=
  optStrFlagToken "--digest-file=" s.digest_file

def get_shell_part_dockerfile (s : Kaniko) : List String :=
  optStrFlagToken "--dockerfile=" s.dockerfile

def get_shell_part_force (s : Kaniko) : List String :=
  boolFlagToken "--force" s.force

def get_shell_part_insecure (s : Kaniko) : List String :=
  boolFlagToken "--insecure" s.insecure

def get_shell_part_insecure_pull (s : Kaniko) : List String :=
  boolFlagToken "--insecure-pull" s.insecure_pull

def get_shell_part_insecure_registry (s : Kaniko) : List String :=
  listFlagTokens "--insecure-registry=" s.insecure_registry

def get_shell_part_no_push (s : Kaniko) : List String :=
  boolFlagToken "--no-push" s.no_push

def get_shell_part_oci_layout_path (s : Kaniko) : List String :=
  optStrFlagToken "--oci-layout-path=" s.oci_layout_path

def get_shell_part_reproducible (s : Kaniko) : List String :=
  boolFlagToken "--reproducible" s.reproducible

def get_shell_part_single_snapshot (s : Kaniko) : List String :=
  boolFlagToken "--single-snapshot" s.single_snapshot

def get_shell_part_skip_tls_verify (s : Kaniko) : List String :=
  boolFlagToken "--skip-tls-verify" s.skip_tls_verify

def get_shell_part_skip_tls_verify_pull (s : Kaniko) : List String :=
  boolFlagToken "--skip-tls-verify-pull" s.skip_tls_verify_pull

def get_shell_part_skip_tls_verify_registry (s : Kaniko) : List String :=
  listFlagTokens "--skip-tls-verify-registry=" s.skip_tls_verify_registry

def get_shell_part_snapshot_mode (s : Kaniko) : List String :=
  optEnumFlagToken "--snapshotMode=" (s.snapshot_mode.map KanikoSnapshotMode.value)

def get_shell_part_tar_path (s : Kaniko) : List String :=
  optStrFlagToken "--tarPath=" s.tar_path

def get_shell_part_target (s : Kaniko) : List String :=
  optStrFlagToken "--target=" s.target

def get_shell_part_verbosity (s : Kaniko) : List String :=
  optEnumFlagToken "--verbosity=" (s.verbosity.map KanikoVerbosity.value)

/- `executor_path = self.kaniko_path + '/executor'` -/
def executorToken (s : Kaniko) : String :=
  s.kaniko_path ++ "/executor"

/- The flags appended to `command` by the `_get_shell_part_*` handlers.
`_shell_part_handlers` collects the handler names with `dir(self)`, which
returns names sorted lexicographically, so the handlers run in alphabetical
order of their suffix; each one only appends to `command`, so the net result
is the concatenation below, in that fixed order. -/
def shellFlags (s : Kaniko) : List String :=
  get_shell_part_build_args s ++ get_shell_part_cache s ++
  get_shell_part_cache_dir s ++ get_shell_part_cache_repo s ++
  get_shell_part_cleanup s ++ get_shell_part_context s ++
  get_shell_part_destination s ++ get_shell_part_digest_file s ++
  get_shell_part_dockerfile s ++ get_shell_part_force s ++
  get_shell_part_insecure s ++ get_shell_part_insecure_pull s ++
  get_shell_part_insecure_registry s ++ get_shell_part_no_push s ++
  get_shell_part_oci_layout_path s ++ get_shell_part_reproducible s ++
  get_shell_part_single_snapshot s ++ get_shell_part_skip_tls_verify s ++
  get_shell_part_skip_tls_verify_pull s ++
  get_shell_part_skip_tls_verify_registry s ++
  get_shell_part_snapshot_mode s ++ get_shell_part_tar_path s ++
  get_shell_part_target s ++ get_shell_part_verbosity s

/- `shell_command`: `command = [executor_path]`, then every handler appends its
flags in the order above. -/
def shell_command (s : Kaniko) : List String :=
  executorToken s :: shellFlags s

end Kaniko

example : Kaniko.shell_command kanikoDefault = ["/kaniko/executor"] := rfl

/- Python `str.strip()` whitespace set, restricted to the ASCII whitespace
characters (the module only ever strips executor log output; the non-ASCII
Unicode whitespace Python would also strip is outside the modelled range). -/
def isPySpace (c : Char) : Bool :=
  c == ' ' || c == '\t' || c == '\n' || c == '\r' || c == '\x0b' || c == '\x0c'

/- `str.strip()`: drop leading and trailing whitespace. -/
def pyStripList (l : List Char) : List Char :=
  ((l.dropWhile isPySpace).reverse.dropWhile isPySpace).reverse

def pyStrip (s : String) : String :=
  ⟨pyStripList s.data⟩

/- `str.split('\n')` with an explicit separator: no collapsing of adjacent
separators, and the empty string splits to `['']`. -/
def pySplitNl : List Char → List (List Char)
  | [] => [[]]
  | c :: rest =>
    if c = '\n' then [] :: pySplitNl rest
    else
      match pySplitNl rest with
      | [] => [[c]]
      | h :: t => (c :: h) :: t

/- `Kaniko._parse_logs`:
`rows = logs.decode('utf-8').strip().split('\n'); return list(map(str.strip, rows))`.
The byte argument is modelled by its UTF-8 decoding, i.e. the function takes
the decoded text directly. -/
def parse_logs (logs : String) : List String :=
  (pySplitNl (pyStrip logs).data).map (fun row => pyStrip ⟨row⟩)

/- `base64.b64encode` character table. -/
def b64Char (i : Nat) : Char :=
  "ABCDEFGHIJKLMNOPQRSTUVWXYZabcdefghijklmnopqrstuvwxyz0123456789+/".data.getD i '='

/- Standard base64 of a byte sequence, with `=` padding. -/
def b64encodeBytes : List Nat → List Char
  | b0 :: b1 :: b2 :: rest =>
    b64Char (b0 / 4) :: b64Char ((b0 % 4) * 16 + b1 / 16) ::
    b64Char ((b1 % 16) * 4 + b2 / 64) :: b64Char (b2 % 64) :: b64encodeBytes rest
  | [b0, b1] =>
    [b64Char (b0 / 4), b64Char ((b0 % 4) * 16 + b1 / 16), b64Char ((b1 % 16) * 4), '=']
  | [b0] =>
    [b64Char (b0 / 4), b64Char ((b0 % 4) * 16), '=', '=']
  | [] => []

def b64encode (bytes : List Nat) : String :=
  ⟨b64encodeBytes bytes⟩

/- `str.encode('ascii')` on an ASCII string: one byte per character.  (Python
raises `UnicodeEncodeError` on non-ASCII input; the credentials handled here
are ASCII.) -/
def asciiBytes (s : String) : List Nat :=
  s.data.map Char.toNat

/- Python `f'{x}'` for `Optional[str]`: `None` renders as the string "None". -/
def pyStr : Option String → String
  | none => "None"
  | some s => s

/- `json.dumps` escaping of a string (ASCII range; `ensure_ascii` escaping of
characters beyond the ASCII range renders `\uXXXX` for the basic plane). -/
def hexDigit (n : Nat) : Char :=
  "0123456789abcdef".data.getD n '0'

def jsonEscapeChar (c : Char) : List Char :=
  if c = '"' then ['\\', '"']
  else if c = '\\' then ['\\', '\\']
  else if c = '\n' then ['\\', 'n']
  else if c = '\r' then ['\\', 'r']
  else if c = '\t' then ['\\', 't']
  else if c = '\x08' then ['\\', 'b']
  else if c = '\x0c' then ['\\', 'f']
  else if c.toNat < 32 || c.toNat > 126 then
    ['\\', 'u', hexDigit (c.toNat / 4096 % 16), hexDigit (c.toNat / 256 % 16),
     hexDigit (c.toNat / 16 % 16), hexDigit (c.toNat % 16)]
  else [c]

def jsonEscape (s : String) : String :=
  ⟨s.data.flatMap jsonEscapeChar⟩

/- `os.path.join(a, b)` (POSIX): `b` absolute wins; otherwise insert `/`
unless `a` is empty or already ends with `/`. -/
def pyPathJoin (a b : String) : String :=
  if b.data.head? = some '/' then b
  else if a = "" || a.data.getLast? = some '/' then a ++ b
  else a ++ "/" ++ b

namespace Kaniko

/- The base64 credential of `_make_config`:
`b64encode(f'{self.registry_username}:{self.registry_password}'.encode('ascii'))`.
Unset credentials therefore encode the literal text "None:None". -/
def authValue (s : Kaniko) : String :=
  b64encode (asciiBytes (pyStr s.registry_username ++ ":" ++ pyStr s.registry_password))

/- The dictionary key of `_make_config` is `self.docker_registry_uri`;
`json.dumps` serializes a `None` dictionary key as the string "null". -/
def authKey (s : Kaniko) : String :=
  match s.docker_registry_uri with
  | none => "null"
  | some uri => uri

/- `json.dumps(self._make_config())` with the default separators:
`{"auths": {"<registry-uri>": {"auth": "<base64>"}}}`. -/
def make_config_json (s : Kaniko) : String :=
  "\x7b\"auths\": \x7b\"" ++ jsonEscape (authKey s) ++ "\": \x7b\"auth\": \"" ++
    jsonEscape (authValue s) ++ "\"\x7d\x7d\x7d"

/- The file path of `_write_config`:
`os.path.join(os.path.join(self.kaniko_path, '.docker'), 'config.json')`. -/
def configPath (s : Kaniko) : String :=
  pyPathJoin (pyPathJoin s.kaniko_path ".docker") "config.json"

end Kaniko

/- The filesystem effect of `_write_config`: one file written at `path` with
`content` (after `os.makedirs(..., exist_ok=True)` on the parent). -/
structure FileWrite where
  path : String
  content : String
deriving DecidableEq, Repr

/- `class KanikoBuildException(Exception)`: stores `exit_code` and `body`, and
passes the formatted message to `Exception.__init__`. -/
structure KanikoBuildException where
  exit_code : Int
  body : List String
  message : String
deriving DecidableEq, Repr

/- `KanikoBuildException.__init__`:
`super().__init__(f'Kaniko failed with exit code {exit_code}: {body_string}')`
where `body_string = "\n".join(body)`. -/
def mkKanikoBuildException (exit_code : Int) (body : List String) : KanikoBuildException where
  exit_code := exit_code
  body := body
  message :=
    "Kaniko failed with exit code " ++ toString exit_code ++ ": " ++
      String.intercalate "\n" body

example : (mkKanikoBuildException 3 ["a", "b"]).message =
    "Kaniko failed with exit code 3: a\nb" := rfl

example : Kaniko.authValue kanikoDefault = "Tm9uZTpOb25l" := rfl

example : Kaniko.configPath kanikoDefault = "/kaniko/.docker/config.json" := rfl

example : Kaniko.make_config_json kanikoDefault =
    "\x7b\"auths\": \x7b\"null\": \x7b\"auth\": \"Tm9uZTpOb25l\"\x7d\x7d\x7d" := rfl

/- One keyword argument passed to `configure(**kwargs)`.  Python keyword
arguments are untyped; the typed constructors below cover every recognized
data attribute at its declared type (the only values the rest of the module
can consume), `method_build`/`method_configure` are the two method names that
`_configure_attribute_names` also contains, `shell_command_key` is the
read-only property in that tuple, and `unknown name` is any other keyword. -/
inductive ConfigEntry where
  | docker_registry_uri (v : Option String)
  | registry_username (v : Option String)
  | registry_password (v : Option String)
  | build_args (v : List String)
  | context (v : Option String)
  | cache (v : Bool)
  | cache_dir (v : Option String)
  | cache_repo (v : Option String)
  | destination (v : PyDestination)
  | digest_file (v : Option String)
  | dockerfile (v : Option String)
  | force (v : Bool)
  | oci_layout_path (v : Option String)
  | insecure_registry (v : List String)
  | skip_tls_verify_registry (v : List String)
  | cleanup (v : Bool)
  | insecure (v : Bool)
  | insecure_pull (v : Bool)
  | no_push (v : Bool)
  | reproducible (v : Bool)
  | single_snapshot (v : Bool)
  | skip_tls_verify (v : Bool)
  | skip_tls_verify_pull (v : Bool)
  | snapshot_mode (v : Option KanikoSnapshotMode)
  | target (v : Option String)
  | tar_path (v : Option String)
  | verbosity (v : Option KanikoVerbosity)
  | kaniko_path (v : String)
  | method_build
  | method_configure
  | shell_command_key
  | unknown (name : String)
deriving DecidableEq, Repr

/- The keyword name of an entry, as the Python call would spell it. -/
def ConfigEntry.keyName : ConfigEntry → String
  | .docker_registry_uri _ => "docker_registry_uri"
  | .registry_username _ => "registry_username"
  | .registry_password _ => "registry_password"
  | .build_args _ => "build_args"
  | .context _ => "context"
  | .cache _ => "cache"
  | .cache_dir _ => "cache_dir"
  | .cache_repo _ => "cache_repo"
  | .destination _ => "destination"
  | .digest_file _ => "digest_file"
  | .dockerfile _ => "dockerfile"
  | .force _ => "force"
  | .oci_layout_path _ => "oci_layout_path"
  | .insecure_registry _ => "insecure_registry"
  | .skip_tls_verify_registry _ => "skip_tls_verify_registry"
  | .cleanup _ => "cleanup"
  | .insecure _ => "insecure"
  | .insecure_pull _ => "insecure_pull"
  | .no_push _ => "no_push"
  | .reproducible _ => "reproducible"
  | .single_snapshot _ => "single_snapshot"
  | .skip_tls_verify _ => "skip_tls_verify"
  | .skip_tls_verify_pull _ => "skip_tls_verify_pull"
  | .snapshot_mode _ => "snapshot_mode"
  | .target _ => "target"
  | .tar_path _ => "tar_path"
  | .verbosity _ => "verbosity"
  | .kaniko_path _ => "kaniko_path"
  | .method_build => "build"
  | .method_configure => "configure"
  | .shell_command_key => "shell_command"
  | .unknown name => name

/- `self._configure_attribute_names`: the keys of the class `__dict__` that do
not start with `_`, in class-body declaration order — the 28 data attributes
followed by `build`, `configure` and the `shell_command` property. -/
def configureAttributeNames : List String :=
  ["docker_registry_uri", "registry_username", "registry_password",
   "build_args", "context", "cache", "cache_dir", "cache_repo", "destination",
   "digest_file", "dockerfile", "force", "oci_layout_path",
   "insecure_registry", "skip_tls_verify_registry", "cleanup", "insecure",
   "insecure_pull", "no_push", "reproducible", "single_snapshot",
   "skip_tls_verify", "skip_tls_verify_pull", "snapshot_mode", "target",
   "tar_path", "verbosity", "kaniko_path", "build", "configure",
   "shell_command"]

/- Every name defined on the `Kaniko` class (used by `hasattr`):
`_configure_attribute_names` plus the underscore-prefixed methods, properties
and the `__init__`-created instance attribute. -/
def kanikoClassAttrNames : List String :=
  configureAttributeNames ++
  ["_configure_attribute_names", "_is_callable", "_make_config",
   "_write_config", "_parse_logs", "_shell_part_handlers",
   "_get_shell_part_build_args", "_get_shell_part_cache",
   "_get_shell_part_cache_dir", "_get_shell_part_cache_repo",
   "_get_shell_part_cleanup", "_get_shell_part_context",
   "_get_shell_part_destination", "_get_shell_part_digest_file",
   "_get_shell_part_dockerfile", "_get_shell_part_force",
   "_get_shell_part_insecure", "_get_shell_part_insecure_pull",
   "_get_shell_part_insecure_registry", "_get_shell_part_no_push",
   "_get_shell_part_oci_layout_path", "_get_shell_part_reproducible",
   "_get_shell_part_single_snapshot", "_get_shell_part_skip_tls_verify",
   "_get_shell_part_skip_tls_verify_pull",
   "_get_shell_part_skip_tls_verify_registry",
   "_get_shell_part_snapshot_mode", "_get_shell_part_tar_path",
   "_get_shell_part_target", "_get_shell_part_verbosity", "__init__",
   "__doc__", "__module__", "__dict__", "__weakref__"]

/- `hasattr(obj, n)`: true for names defined on the class and for dynamically
added instance attributes. -/
def Kaniko.hasAttr (s : Kaniko) (n : String) : Prop :=
  n ∈ kanikoClassAttrNames ∨ n ∈ s.extra

instance (s : Kaniko) (n : String) : Decidable (s.hasAttr n) := by
  unfold Kaniko.hasAttr; infer_instance

/- The state change of one iteration of the `configure` loop, ignoring the
exceptional `shell_command` case (handled in `applyEntry`): recognized data
keys are stored with `setattr`, `build`/`configure` are skipped because their
current value is callable, and unrecognized keys are skipped by the
`key not in self._configure_attribute_names` test.  (An `unknown` entry is
assumed to carry a genuinely unrecognized name; the theorems about `configure`
state that assumption explicitly.) -/
def applyEntryPure (s : Kaniko) : ConfigEntry → Kaniko
  | .docker_registry_uri v => { s with docker_registry_uri := v }
  | .registry_username v => { s with registry_username := v }
  | .registry_password v => { s with registry_password := v }
  | .build_args v => { s with build_args := v }
  | .context v => { s with context := v }
  | .cache v => { s with cache := v }
  | .cache_dir v => { s with cache_dir := v }
  | .cache_repo v => { s with cache_repo := v }
  | .destination v => { s with destination := v }
  | .digest_file v => { s with digest_file := v }
  | .dockerfile v => { s with dockerfile := v }
  | .force v => { s with force := v }
  | .oci_layout_path v => { s with oci_layout_path := v }
  | .insecure_registry v => { s with insecure_registry := v }
  | .skip_tls_verify_registry v => { s with skip_tls_verify_registry := v }
  | .cleanup v => { s with cleanup := v }
  | .insecure v => { s with insecure := v }
  | .insecure_pull v => { s with insecure_pull := v }
  | .no_push v => { s with no_push := v }
  | .reproducible v => { s with reproducible := v }
  | .single_snapshot v => { s with single_snapshot := v }
  | .skip_tls_verify v => { s with skip_tls_verify := v }
  | .skip_tls_verify_pull v => { s with skip_tls_verify_pull := v }
  | .snapshot_mode v => { s with snapshot_mode := v }
  | .target v => { s with target := v }
  | .tar_path v => { s with tar_path := v }
  | .verbosity v => { s with verbosity := v }
  | .kaniko_path v => { s with kaniko_path := v }
  | .method_build => s
  | .method_configure => s
  | .shell_command_key => s
  | .unknown _ => s

/- One iteration of the `configure` loop.  `shell_command` is in
`_configure_attribute_names` and its current value (the computed flag list) is
not callable, so the loop reaches `setattr(self, 'shell_command', value)`,
which raises `AttributeError` because the property has no setter. -/
def applyEntry (s : Kaniko) (e : ConfigEntry) : Except String Kaniko :=
  match e with
  | .shell_command_key => .error "AttributeError: cannot set attribute shell_command"
  | e => .ok (applyEntryPure s e)

/- `Kaniko.configure(**kwargs)`: iterate over the keyword arguments in call
order; a raised `AttributeError` propagates. -/
def Kaniko.configure (s : Kaniko) : List ConfigEntry → Except String Kaniko
  | [] => .ok s
  | e :: rest =>
    match applyEntry s e with
    | .error msg => .error msg
    | .ok s' => Kaniko.configure s' rest

/- The 28 recognized data-attribute keys, used to state "the stored value of a
recognized key" uniformly. -/
inductive ConfigKey where
  | docker_registry_uri
  | registry_username
  | registry_password
  | build_args
  | context
  | cache
  | cache_dir
  | cache_repo
  | destination
  | digest_file
  | dockerfile
  | force
  | oci_layout_path
  | insecure_registry
  | skip_tls_verify_registry
  | cleanup
  | insecure
  | insecure_pull
  | no_push
  | reproducible
  | single_snapshot
  | skip_tls_verify
  | skip_tls_verify_pull
  | snapshot_mode
  | target
  | tar_path
  | verbosity
  | kaniko_path
deriving DecidableEq, Repr

/- A stored attribute value, wrapped in one dynamic type so that values of
different attributes can be compared uniformly (Python attributes are
untyped slots). -/
inductive Value where
  | ostr (o : Option String)
  | vstr (v : String)
  | vbool (b : Bool)
  | slist (l : List String)
  | dest (d : PyDestination)
  | osnap (o : Option KanikoSnapshotMode)
  | overb (o : Option KanikoVerbosity)
deriving DecidableEq, Repr

/- `getattr` on a recognized data attribute. -/
def Kaniko.getVal (s : Kaniko) : ConfigKey → Value
  | .docker_registry_uri => .ostr s.docker_registry_uri
  | .registry_username => .ostr s.registry_username
  | .registry_password => .ostr s.registry_password
  | .build_args => .slist s.build_args
  | .context => .ostr s.context
  | .cache => .vbool s.cache
  | .cache_dir => .ostr s.cache_dir
  | .cache_repo => .ostr s.cache_repo
  | .destination => .dest s.destination
  | .digest_file => .ostr s.digest_file
  | .dockerfile => .ostr s.dockerfile
  | .force => .vbool s.force
  | .oci_layout_path => .ostr s.oci_layout_path
  | .insecure_registry => .slist s.insecure_registry
  | .skip_tls_verify_registry => .slist s.skip_tls_verify_registry
  | .cleanup => .vbool s.cleanup
  | .insecure => .vbool s.insecure
  | .insecure_pull => .vbool s.insecure_pull
  | .no_push => .vbool s.no_push
  | .reproducible => .vbool s.reproducible
  | .single_snapshot => .vbool s.single_snapshot
  | .skip_tls_verify => .vbool s.skip_tls_verify
  | .skip_tls_verify_pull => .vbool s.skip_tls_verify_pull
  | .snapshot_mode => .osnap s.snapshot_mode
  | .target => .ostr s.target
  | .tar_path => .ostr s.tar_path
  | .verbosity => .overb s.verbosity
  | .kaniko_path => .vstr s.kaniko_path

/- The recognized data key of a keyword argument, when it has one. -/
def ConfigEntry.dataKey : ConfigEntry → Option ConfigKey
  | .docker_registry_uri _ => some .docker_registry_uri
  | .registry_username _ => some .registry_username
  | .registry_password _ => some .registry_password
  | .build_args _ => some .build_args
  | .context _ => some .context
  | .cache _ => some .cache
  | .cache_dir _ => some .cache_dir
  | .cache_repo _ => some .cache_repo
  | .destination _ => some .destination
  | .digest_file _ => some .digest_file
  | .dockerfile _ => some .dockerfile
  | .force _ => some .force
  | .oci_layout_path _ => some .oci_layout_path
  | .insecure_registry _ => some .insecure_registry
  | .skip_tls_verify_registry _ => some .skip_tls_verify_registry
  | .cleanup _ => some .cleanup
  | .insecure _ => some .insecure
  | .insecure_pull _ => some .insecure_pull
  | .no_push _ => some .no_push
  | .reproducible _ => some .reproducible
  | .single_snapshot _ => some .single_snapshot
  | .skip_tls_verify _ => some .skip_tls_verify
  | .skip_tls_verify_pull _ => some .skip_tls_verify_pull
  | .snapshot_mode _ => some .snapshot_mode
  | .target _ => some .target
  | .tar_path _ => some .tar_path
  | .verbosity _ => some .verbosity
  | .kaniko_path _ => some .kaniko_path
  | .method_build => none
  | .method_configure => none
  | .shell_command_key => none
  | .unknown _ => none

/- The supplied value of a keyword argument, when it targets a data key. -/
def ConfigEntry.suppliedVal : ConfigEntry → Option Value
  | .docker_registry_uri v => some (.ostr v)
  | .registry_username v => some (.ostr v)
  | .registry_password v => some (.ostr v)
  | .build_args v => some (.slist v)
  | .context v => some (.ostr v)
  | .cache v => some (.vbool v)
  | .cache_dir v => some (.ostr v)
  | .cache_repo v => some (.ostr v)
  | .destination v => some (.dest v)
  | .digest_file v => some (.ostr v)
  | .dockerfile v => some (.ostr v)
  | .force v => some (.vbool v)
  | .oci_layout_path v => some (.ostr v)
  | .insecure_registry v => some (.slist v)
  | .skip_tls_verify_registry v => some (.slist v)
  | .cleanup v => some (.vbool v)
  | .insecure v => some (.vbool v)
  | .insecure_pull v => some (.vbool v)
  | .no_push v => some (.vbool v)
  | .reproducible v => some (.vbool v)
  | .single_snapshot v => some (.vbool v)
  | .skip_tls_verify v => some (.vbool v)
  | .skip_tls_verify_pull v => some (.vbool v)
  | .snapshot_mode v => some (.osnap v)
  | .target v => some (.ostr v)
  | .tar_path v => some (.ostr v)
  | .verbosity v => some (.overb v)
  | .kaniko_path v => some (.vstr v)
  | .method_build => none
  | .method_configure => none
  | .shell_command_key => none
  | .unknown _ => none

/- What `Kaniko.build` produces besides its filesystem effect. -/
inductive BuildOutcome where
  | configError (msg : String)
  | buildError (e : KanikoBuildException)
  | success (lines : List String)
deriving DecidableEq, Repr

/- `Kaniko.build(**kwargs)`, with the subprocess as an oracle: given the exit
code and the raw combined stdout/stderr text the spawned process would
produce, the model returns the filesystem write performed by `_write_config`
(if reached) and the outcome.  Mirrors the source order: `configure`, then
`_write_config`, then `Popen(self.shell_command, ...)`/`wait`, then
`_parse_logs`, then raise on nonzero exit or return the parsed lines. -/
def Kaniko.buildModel (s : Kaniko) (kwargs : List ConfigEntry) (exitCode : Int)
    (rawOutput : String) : Option FileWrite × BuildOutcome :=
  match Kaniko.configure s kwargs with
  | .error msg => (none, .configError msg)
  | .ok s' =>
    (some ⟨Kaniko.configPath s', Kaniko.make_config_json s'⟩,
     if exitCode ≠ 0 then
       .buildError (mkKanikoBuildException exitCode (parse_logs rawOutput))
     else
       .success (parse_logs rawOutput))

/- `leadsWith p t`: the character list `p` is an initial segment of `t`.  Used
to select, out of a full command line, the tokens of one flag family
(every flag family in the module starts with a distinct `--name=` text). -/
def leadsWith : List Char → List Char → Bool
  | [], _ => true
  | _ :: _, [] => false
  | a :: as, b :: bs => a == b && leadsWith as bs

/- The tokens of `l` that start with the text `P`. -/
def tokFilter (P : String) (l : List String) : List String :=
  l.filter (fun t => leadsWith P.data t.data)

theorem leadsWith_self_append (p v : List Char) : leadsWith p (p ++ v) = true := by
  induction p with
  | nil => rfl
  | cons a as ih => simp [leadsWith, ih]

theorem leadsWith_append_false {p q : List Char} (h1 : leadsWith p q = false)
    (h2 : leadsWith q p = false) (v : List Char) : leadsWith p (q ++ v) = false := by
  induction p generalizing q with
  | nil => simp [leadsWith] at h1
  | cons a as ih =>
    cases q with
    | nil => simp [leadsWith] at h2
    | cons b bs =>
      simp only [leadsWith, Bool.and_eq_false_iff] at h1 h2
      rcases h1 with h1 | h1
      · simp [List.cons_append, leadsWith, h1]
      · rcases h2 with h2 | h2
        · have : (a == b) = false := by
            cases hab : a == b
            · rfl
            · rw [beq_iff_eq] at hab; subst hab; simp [beq_self_eq_true] at h2
          simp [List.cons_append, leadsWith, this]
        · simp [List.cons_append, leadsWith, ih h1 h2]

theorem tokFilter_append (P : String) (l1 l2 : List String) :
    tokFilter P (l1 ++ l2) = tokFilter P l1 ++ tokFilter P l2 :=
  List.filter_append l1 l2

theorem tokFilter_listFlag_self (P : String) (l : List String) :
    tokFilter P (listFlagTokens P l) = listFlagTokens P l := by
  induction l with
  | nil => rfl
  | cons a as ih =>
    simp only [listFlagTokens, List.map_cons, tokFilter, List.filter_cons] at ih ⊢
    rw [String.data_append, leadsWith_self_append]
    simpa [tokFilter, listFlagTokens] using ih

theorem tokFilter_listFlag_nil (P Q : String) (h1 : leadsWith P.data Q.data = false)
    (h2 : leadsWith Q.data P.data = false) (l : List String) :
    tokFilter P (listFlagTokens Q l) = [] := by
  induction l with
  | nil => rfl
  | cons a as ih =>
    simp only [listFlagTokens, List.map_cons, tokFilter, List.filter_cons] at ih ⊢
    rw [String.data_append, leadsWith_append_false h1 h2]
    simpa [tokFilter, listFlagTokens] using ih

theorem tokFilter_bool_nil (P B : String) (h : leadsWith P.data B.data = false)
    (b : Bool) : tokFilter P (boolFlagToken B b) = [] := by
  cases b <;> simp [boolFlagToken, tokFilter, h]

theorem tokFilter_optStr_self (P : String) (o : Option String) :
    tokFilter P (optStrFlagToken P o) = optStrFlagToken P o := by
  cases o with
  | none => rfl
  | some v =>
    by_cases hv : v = "" <;>
      simp [optStrFlagToken, tokFilter, hv, String.data_append, leadsWith_self_append]

theorem tokFilter_optStr_nil (P Q : String) (h1 : leadsWith P.data Q.data = false)
    (h2 : leadsWith Q.data P.data = false) (o : Option String) :
    tokFilter P (optStrFlagToken Q o) = [] := by
  cases o with
  | none => rfl
  | some v =>
    by_cases hv : v = "" <;>
      simp [optStrFlagToken, tokFilter, hv, String.data_append,
        leadsWith_append_false h1 h2]

theorem tokFilter_optEnum_self (P : String) (o : Option String) :
    tokFilter P (optEnumFlagToken P o) = optEnumFlagToken P o := by
  cases o with
  | none => rfl
  | some v =>
    simp [optEnumFlagToken, tokFilter, String.data_append, leadsWith_self_append]

theorem tokFilter_optEnum_nil (P Q : String) (h1 : leadsWith P.data Q.data = false)
    (h2 : leadsWith Q.data P.data = false) (o : Option String) :
    tokFilter P (optEnumFlagToken Q o) = [] := by
  cases o with
  | none => rfl
  | some v =>
    simp [optEnumFlagToken, tokFilter, String.data_append,
      leadsWith_append_false h1 h2]

theorem tokFilter_single_self (P v : String) : tokFilter P [P ++ v] = [P ++ v] := by
  rw [tokFilter, List.filter_cons, String.data_append, leadsWith_self_append]
  simp

theorem tokFilter_single_nil (P Q : String) (h1 : leadsWith P.data Q.data = false)
    (h2 : leadsWith Q.data P.data = false) (v : String) : tokFilter P [Q ++ v] = [] := by
  rw [tokFilter, List.filter_cons, String.data_append, leadsWith_append_false h1 h2]
  simp [tokFilter]

theorem tokFilter_dest_self (d : PyDestination) :
    tokFilter "--destination=" (destinationTokens d) = destinationTokens d := by
  cases d with
  | dnone => rfl
  | scalar v =>
    by_cases hv : v = ""
    · simp [destinationTokens, hv, tokFilter]
    · simp only [destinationTokens, if_neg hv]
      exact tokFilter_single_self "--destination=" v
  | dlist l =>
    by_cases hl : l = []
    · simp [destinationTokens, hl, tokFilter]
    · simp only [destinationTokens, if_neg hl]
      exact tokFilter_listFlag_self "--destination=" l

theorem tokFilter_dest_nil (P : String)
    (h1 : leadsWith P.data "--destination=".data = false)
    (h2 : leadsWith "--destination=".data P.data = false) (d : PyDestination) :
    tokFilter P (destinationTokens d) = [] := by
  cases d with
  | dnone => rfl
  | scalar v =>
    by_cases hv : v = ""
    · simp [destinationTokens, hv, tokFilter]
    · simp only [destinationTokens, if_neg hv]
      exact tokFilter_single_nil P "--destination=" h1 h2 v
  | dlist l =>
    by_cases hl : l = []
    · simp [destinationTokens, hl, tokFilter]
    · simp only [destinationTokens, if_neg hl]
      exact tokFilter_listFlag_nil P "--destination=" h1 h2 l



theorem tokFilter_flags_build_args (s : Kaniko) :
    tokFilter "--build-arg=" (Kaniko.shellFlags s) = listFlagTokens "--build-arg=" s.build_args := by
  simp (disch := decide) only [Kaniko.shellFlags, Kaniko.get_shell_part_build_args, Kaniko.get_shell_part_cache, Kaniko.get_shell_part_cache_dir, Kaniko.get_shell_part_cache_repo, Kaniko.get_shell_part_cleanup, Kaniko.get_shell_part_context, Kaniko.get_shell_part_destination, Kaniko.get_shell_part_digest_file, Kaniko.get_shell_part_dockerfile, Kaniko.get_shell_part_force, Kaniko.get_shell_part_insecure, Kaniko.get_shell_part_insecure_pull, Kaniko.get_shell_part_insecure_registry, Kaniko.get_shell_part_no_push, Kaniko.get_shell_part_oci_layout_path, Kaniko.get_shell_part_reproducible, Kaniko.get_shell_part_single_snapshot, Kaniko.get_shell_part_skip_tls_verify, Kaniko.get_shell_part_skip_tls_verify_pull, Kaniko.get_shell_part_skip_tls_verify_registry, Kaniko.get_shell_part_snapshot_mode, Kaniko.get_shell_part_tar_path, Kaniko.get_shell_part_target, Kaniko.get_shell_part_verbosity,
    tokFilter_append, tokFilter_listFlag_nil, tokFilter_bool_nil, tokFilter_optStr_nil, tokFilter_optEnum_nil, tokFilter_dest_nil, List.append_nil, List.nil_append, tokFilter_listFlag_self]

theorem tokFilter_flags_insecure_registry (s : Kaniko) :
    tokFilter "--insecure-registry=" (Kaniko.shellFlags s) = listFlagTokens "--insecure-registry=" s.insecure_registry := by
  simp (disch := decide) only [Kaniko.shellFlags, Kaniko.get_shell_part_build_args, Kaniko.get_shell_part_cache, Kaniko.get_shell_part_cache_dir, Kaniko.get_shell_part_cache_repo, Kaniko.get_shell_part_cleanup, Kaniko.get_shell_part_context, Kaniko.get_shell_part_destination, Kaniko.get_shell_part_digest_file, Kaniko.get_shell_part_dockerfile, Kaniko.get_shell_part_force, Kaniko.get_shell_part_insecure, Kaniko.get_shell_part_insecure_pull, Kaniko.get_shell_part_insecure_registry, Kaniko.get_shell_part_no_push, Kaniko.get_shell_part_oci_layout_path, Kaniko.get_shell_part_reproducible, Kaniko.get_shell_part_single_snapshot, Kaniko.get_shell_part_skip_tls_verify, Kaniko.get_shell_part_skip_tls_verify_pull, Kaniko.get_shell_part_skip_tls_verify_registry, Kaniko.get_shell_part_snapshot_mode, Kaniko.get_shell_part_tar_path, Kaniko.get_shell_part_target, Kaniko.get_shell_part_verbosity,
    tokFilter_append, tokFilter_listFlag_nil, tokFilter_bool_nil, tokFilter_optStr_nil, tokFilter_optEnum_nil, tokFilter_dest_nil, List.append_nil, List.nil_append, tokFilter_listFlag_self]

theorem tokFilter_flags_skip_tls_verify_registry (s : Kaniko) :
    tokFilter "--skip-tls-verify-registry=" (Kaniko.shellFlags s) = listFlagTokens "--skip-tls-verify-registry=" s.skip_tls_verify_registry := by
  simp (disch := decide) only [Kaniko.shellFlags, Kaniko.get_shell_part_build_args, Kaniko.get_shell_part_cache, Kaniko.get_shell_part_cache_dir, Kaniko.get_shell_part_cache_repo, Kaniko.get_shell_part_cleanup, Kaniko.get_shell_part_context, Kaniko.get_shell_part_destination, Kaniko.get_shell_part_digest_file, Kaniko.get_shell_part_dockerfile, Kaniko.get_shell_part_force, Kaniko.get_shell_part_insecure, Kaniko.get_shell_part_insecure_pull, Kaniko.get_shell_part_insecure_registry, Kaniko.get_shell_part_no_push, Kaniko.get_shell_part_oci_layout_path, Kaniko.get_shell_part_reproducible, Kaniko.get_shell_part_single_snapshot, Kaniko.get_shell_part_skip_tls_verify, Kaniko.get_shell_part_skip_tls_verify_pull, Kaniko.get_shell_part_skip_tls_verify_registry, Kaniko.get_shell_part_snapshot_mode, Kaniko.get_shell_part_tar_path, Kaniko.get_shell_part_target, Kaniko.get_shell_part_verbosity,
    tokFilter_append, tokFilter_listFlag_nil, tokFilter_bool_nil, tokFilter_optStr_nil, tokFilter_optEnum_nil, tokFilter_dest_nil, List.append_nil, List.nil_append, tokFilter_listFlag_self]

theorem tokFilter_flags_context (s : Kaniko) :
    tokFilter "--context=" (Kaniko.shellFlags s) = optStrFlagToken "--context=" s.context := by
  simp (disch := decide) only [Kaniko.shellFlags, Kaniko.get_shell_part_build_args, Kaniko.get_shell_part_cache, Kaniko.get_shell_part_cache_dir, Kaniko.get_shell_part_cache_repo, Kaniko.get_shell_part_cleanup, Kaniko.get_shell_part_context, Kaniko.get_shell_part_destination, Kaniko.get_shell_part_digest_file, Kaniko.get_shell_part_dockerfile, Kaniko.get_shell_part_force, Kaniko.get_shell_part_insecure, Kaniko.get_shell_part_insecure_pull, Kaniko.get_shell_part_insecure_registry, Kaniko.get_shell_part_no_push, Kaniko.get_shell_part_oci_layout_path, Kaniko.get_shell_part_reproducible, Kaniko.get_shell_part_single_snapshot, Kaniko.get_shell_part_skip_tls_verify, Kaniko.get_shell_part_skip_tls_verify_pull, Kaniko.get_shell_part_skip_tls_verify_registry, Kaniko.get_shell_part_snapshot_mode, Kaniko.get_shell_part_tar_path, Kaniko.get_shell_part_target, Kaniko.get_shell_part_verbosity,
    tokFilter_append, tokFilter_listFlag_nil, tokFilter_bool_nil, tokFilter_optStr_nil, tokFilter_optEnum_nil, tokFilter_dest_nil, List.append_nil, List.nil_append, tokFilter_optStr_self]

theorem tokFilter_flags_cache_dir (s : Kaniko) :
    tokFilter "--cache-dir=" (Kaniko.shellFlags s) = optStrFlagToken "--cache-dir=" s.cache_dir := by
  simp (disch := decide) only [Kaniko.shellFlags, Kaniko.get_shell_part_build_args, Kaniko.get_shell_part_cache, Kaniko.get_shell_part_cache_dir, Kaniko.get_shell_part_cache_repo, Kaniko.get_shell_part_cleanup, Kaniko.get_shell_part_context, Kaniko.get_shell_part_destination, Kaniko.get_shell_part_digest_file, Kaniko.get_shell_part_dockerfile, Kaniko.get_shell_part_force, Kaniko.get_shell_part_insecure, Kaniko.get_shell_part_insecure_pull, Kaniko.get_shell_part_insecure_registry, Kaniko.get_shell_part_no_push, Kaniko.get_shell_part_oci_layout_path, Kaniko.get_shell_part_reproducible, Kaniko.get_shell_part_single_snapshot, Kaniko.get_shell_part_skip_tls_verify, Kaniko.get_shell_part_skip_tls_verify_pull, Kaniko.get_shell_part_skip_tls_verify_registry, Kaniko.get_shell_part_snapshot_mode, Kaniko.get_shell_part_tar_path, Kaniko.get_shell_part_target, Kaniko.get_shell_part_verbosity,
    tokFilter_append, tokFilter_listFlag_nil, tokFilter_bool_nil, tokFilter_optStr_nil, tokFilter_optEnum_nil, tokFilter_dest_nil, List.append_nil, List.nil_append, tokFilter_optStr_self]

theorem tokFilter_flags_cache_repo (s : Kaniko) :
    tokFilter "--cache-repo=" (Kaniko.shellFlags s) = optStrFlagToken "--cache-repo=" s.cache_repo := by
  simp (disch := decide) only [Kaniko.shellFlags, Kaniko.get_shell_part_build_args, Kaniko.get_shell_part_cache, Kaniko.get_shell_part_cache_dir, Kaniko.get_shell_part_cache_repo, Kaniko.get_shell_part_cleanup, Kaniko.get_shell_part_context, Kaniko.get_shell_part_destination, Kaniko.get_shell_part_digest_file, Kaniko.get_shell_part_dockerfile, Kaniko.get_shell_part_force, Kaniko.get_shell_part_insecure, Kaniko.get_shell_part_insecure_pull, Kaniko.get_shell_part_insecure_registry, Kaniko.get_shell_part_no_push, Kaniko.get_shell_part_oci_layout_path, Kaniko.get_shell_part_reproducible, Kaniko.get_shell_part_single_snapshot, Kaniko.get_shell_part_skip_tls_verify, Kaniko.get_shell_part_skip_tls_verify_pull, Kaniko.get_shell_part_skip_tls_verify_registry, Kaniko.get_shell_part_snapshot_mode, Kaniko.get_shell_part_tar_path, Kaniko.get_shell_part_target, Kaniko.get_shell_part_verbosity,
    tokFilter_append, tokFilter_listFlag_nil, tokFilter_bool_nil, tokFilter_optStr_nil, tokFilter_optEnum_nil, tokFilter_dest_nil, List.append_nil, List.nil_append, tokFilter_optStr_self]

theorem tokFilter_flags_digest_file (s : Kaniko) :
    tokFilter "--digest-file=" (Kaniko.shellFlags s) = optStrFlagToken "--digest-file=" s.digest_file := by
  simp (disch := decide) only [Kaniko.shellFlags, Kaniko.get_shell_part_build_args, Kaniko.get_shell_part_cache, Kaniko.get_shell_part_cache_dir, Kaniko.get_shell_part_cache_repo, Kaniko.get_shell_part_cleanup, Kaniko.get_shell_part_context, Kaniko.get_shell_part_destination, Kaniko.get_shell_part_digest_file, Kaniko.get_shell_part_dockerfile, Kaniko.get_shell_part_force, Kaniko.get_shell_part_insecure, Kaniko.get_shell_part_insecure_pull, Kaniko.get_shell_part_insecure_registry, Kaniko.get_shell_part_no_push, Kaniko.get_shell_part_oci_layout_path, Kaniko.get_shell_part_reproducible, Kaniko.get_shell_part_single_snapshot, Kaniko.get_shell_part_skip_tls_verify, Kaniko.get_shell_part_skip_tls_verify_pull, Kaniko.get_shell_part_skip_tls_verify_registry, Kaniko.get_shell_part_snapshot_mode, Kaniko.get_shell_part_tar_path, Kaniko.get_shell_part_target, Kaniko.get_shell_part_verbosity,
    tokFilter_append, tokFilter_listFlag_nil, tokFilter_bool_nil, tokFilter_optStr_nil, tokFilter_optEnum_nil, tokFilter_dest_nil, List.append_nil, List.nil_append, tokFilter_optStr_self]

theorem tokFilter_flags_dockerfile (s : Kaniko) :
    tokFilter "--dockerfile=" (Kaniko.shellFlags s) = optStrFlagToken "--dockerfile=" s.dockerfile := by
  simp (disch := decide) only [Kaniko.shellFlags, Kaniko.get_shell_part_build_args, Kaniko.get_shell_part_cache, Kaniko.get_shell_part_cache_dir, Kaniko.get_shell_part_cache_repo, Kaniko.get_shell_part_cleanup, Kaniko.get_shell_part_context, Kaniko.get_shell_part_destination, Kaniko.get_shell_part_digest_file, Kaniko.get_shell_part_dockerfile, Kaniko.get_shell_part_force, Kaniko.get_shell_part_insecure, Kaniko.get_shell_part_insecure_pull, Kaniko.get_shell_part_insecure_registry, Kaniko.get_shell_part_no_push, Kaniko.get_shell_part_oci_layout_path, Kaniko.get_shell_part_reproducible, Kaniko.get_shell_part_single_snapshot, Kaniko.get_shell_part_skip_tls_verify, Kaniko.get_shell_part_skip_tls_verify_pull, Kaniko.get_shell_part_skip_tls_verify_registry, Kaniko.get_shell_part_snapshot_mode, Kaniko.get_shell_part_tar_path, Kaniko.get_shell_part_target, Kaniko.get_shell_part_verbosity,
    tokFilter_append, tokFilter_listFlag_nil, tokFilter_bool_nil, tokFilter_optStr_nil, tokFilter_optEnum_nil, tokFilter_dest_nil, List.append_nil, List.nil_append, tokFilter_optStr_self]

theorem tokFilter_flags_oci_layout_path (s : Kaniko) :
    tokFilter "--oci-layout-path=" (Kaniko.shellFlags s) = optStrFlagToken "--oci-layout-path=" s.oci_layout_path := by
  simp (disch := decide) only [Kaniko.shellFlags, Kaniko.get_shell_part_build_args, Kaniko.get_shell_part_cache, Kaniko.get_shell_part_cache_dir, Kaniko.get_shell_part_cache_repo, Kaniko.get_shell_part_cleanup, Kaniko.get_shell_part_context, Kaniko.get_shell_part_destination, Kaniko.get_shell_part_digest_file, Kaniko.get_shell_part_dockerfile, Kaniko.get_shell_part_force, Kaniko.get_shell_part_insecure, Kaniko.get_shell_part_insecure_pull, Kaniko.get_shell_part_insecure_registry, Kaniko.get_shell_part_no_push, Kaniko.get_shell_part_oci_layout_path, Kaniko.get_shell_part_reproducible, Kaniko.get_shell_part_single_snapshot, Kaniko.get_shell_part_skip_tls_verify, Kaniko.get_shell_part_skip_tls_verify_pull, Kaniko.get_shell_part_skip_tls_verify_registry, Kaniko.get_shell_part_snapshot_mode, Kaniko.get_shell_part_tar_path, Kaniko.get_shell_part_target, Kaniko.get_shell_part_verbosity,
    tokFilter_append, tokFilter_listFlag_nil, tokFilter_bool_nil, tokFilter_optStr_nil, tokFilter_optEnum_nil, tokFilter_dest_nil, List.append_nil, List.nil_append, tokFilter_optStr_self]

theorem tokFilter_flags_target (s : Kaniko) :
    tokFilter "--target=" (Kaniko.shellFlags s) = optStrFlagToken "--target=" s.target := by
  simp (disch := decide) only [Kaniko.shellFlags, Kaniko.get_shell_part_build_args, Kaniko.get_shell_part_cache, Kaniko.get_shell_part_cache_dir, Kaniko.get_shell_part_cache_repo, Kaniko.get_shell_part_cleanup, Kaniko.get_shell_part_context, Kaniko.get_shell_part_destination, Kaniko.get_shell_part_digest_file, Kaniko.get_shell_part_dockerfile, Kaniko.get_shell_part_force, Kaniko.get_shell_part_insecure, Kaniko.get_shell_part_insecure_pull, Kaniko.get_shell_part_insecure_registry, Kaniko.get_shell_part_no_push, Kaniko.get_shell_part_oci_layout_path, Kaniko.get_shell_part_reproducible, Kaniko.get_shell_part_single_snapshot, Kaniko.get_shell_part_skip_tls_verify, Kaniko.get_shell_part_skip_tls_verify_pull, Kaniko.get_shell_part_skip_tls_verify_registry, Kaniko.get_shell_part_snapshot_mode, Kaniko.get_shell_part_tar_path, Kaniko.get_shell_part_target, Kaniko.get_shell_part_verbosity,
    tokFilter_append, tokFilter_listFlag_nil, tokFilter_bool_nil, tokFilter_optStr_nil, tokFilter_optEnum_nil, tokFilter_dest_nil, List.append_nil, List.nil_append, tokFilter_optStr_self]

theorem tokFilter_flags_tar_path (s : Kaniko) :
    tokFilter "--tarPath=" (Kaniko.shellFlags s) = optStrFlagToken "--tarPath=" s.tar_path := by
  simp (disch := decide) only [Kaniko.shellFlags, Kaniko.get_shell_part_build_args, Kaniko.get_shell_part_cache, Kaniko.get_shell_part_cache_dir, Kaniko.get_shell_part_cache_repo, Kaniko.get_shell_part_cleanup, Kaniko.get_shell_part_context, Kaniko.get_shell_part_destination, Kaniko.get_shell_part_digest_file, Kaniko.get_shell_part_dockerfile, Kaniko.get_shell_part_force, Kaniko.get_shell_part_insecure, Kaniko.get_shell_part_insecure_pull, Kaniko.get_shell_part_insecure_registry, Kaniko.get_shell_part_no_push, Kaniko.get_shell_part_oci_layout_path, Kaniko.get_shell_part_reproducible, Kaniko.get_shell_part_single_snapshot, Kaniko.get_shell_part_skip_tls_verify, Kaniko.get_shell_part_skip_tls_verify_pull, Kaniko.get_shell_part_skip_tls_verify_registry, Kaniko.get_shell_part_snapshot_mode, Kaniko.get_shell_part_tar_path, Kaniko.get_shell_part_target, Kaniko.get_shell_part_verbosity,
    tokFilter_append, tokFilter_listFlag_nil, tokFilter_bool_nil, tokFilter_optStr_nil, tokFilter_optEnum_nil, tokFilter_dest_nil, List.append_nil, List.nil_append, tokFilter_optStr_self]

theorem tokFilter_flags_snapshot_mode (s : Kaniko) :
    tokFilter "--snapshotMode=" (Kaniko.shellFlags s) = optEnumFlagToken "--snapshotMode=" (s.snapshot_mode.map KanikoSnapshotMode.value) := by
  simp (disch := decide) only [Kaniko.shellFlags, Kaniko.get_shell_part_build_args, Kaniko.get_shell_part_cache, Kaniko.get_shell_part_cache_dir, Kaniko.get_shell_part_cache_repo, Kaniko.get_shell_part_cleanup, Kaniko.get_shell_part_context, Kaniko.get_shell_part_destination, Kaniko.get_shell_part_digest_file, Kaniko.get_shell_part_dockerfile, Kaniko.get_shell_part_force, Kaniko.get_shell_part_insecure, Kaniko.get_shell_part_insecure_pull, Kaniko.get_shell_part_insecure_registry, Kaniko.get_shell_part_no_push, Kaniko.get_shell_part_oci_layout_path, Kaniko.get_shell_part_reproducible, Kaniko.get_shell_part_single_snapshot, Kaniko.get_shell_part_skip_tls_verify, Kaniko.get_shell_part_skip_tls_verify_pull, Kaniko.get_shell_part_skip_tls_verify_registry, Kaniko.get_shell_part_snapshot_mode, Kaniko.get_shell_part_tar_path, Kaniko.get_shell_part_target, Kaniko.get_shell_part_verbosity,
    tokFilter_append, tokFilter_listFlag_nil, tokFilter_bool_nil, tokFilter_optStr_nil, tokFilter_optEnum_nil, tokFilter_dest_nil, List.append_nil, List.nil_append, tokFilter_optEnum_self]

theorem tokFilter_flags_verbosity (s : Kaniko) :
    tokFilter "--verbosity=" (Kaniko.shellFlags s) = optEnumFlagToken "--verbosity=" (s.verbosity.map KanikoVerbosity.value) := by
  simp (disch := decide) only [Kaniko.shellFlags, Kaniko.get_shell_part_build_args, Kaniko.get_shell_part_cache, Kaniko.get_shell_part_cache_dir, Kaniko.get_shell_part_cache_repo, Kaniko.get_shell_part_cleanup, Kaniko.get_shell_part_context, Kaniko.get_shell_part_destination, Kaniko.get_shell_part_digest_file, Kaniko.get_shell_part_dockerfile, Kaniko.get_shell_part_force, Kaniko.get_shell_part_insecure, Kaniko.get_shell_part_insecure_pull, Kaniko.get_shell_part_insecure_registry, Kaniko.get_shell_part_no_push, Kaniko.get_shell_part_oci_layout_path, Kaniko.get_shell_part_reproducible, Kaniko.get_shell_part_single_snapshot, Kaniko.get_shell_part_skip_tls_verify, Kaniko.get_shell_part_skip_tls_verify_pull, Kaniko.get_shell_part_skip_tls_verify_registry, Kaniko.get_shell_part_snapshot_mode, Kaniko.get_shell_part_tar_path, Kaniko.get_shell_part_target, Kaniko.get_shell_part_verbosity,
    tokFilter_append, tokFilter_listFlag_nil, tokFilter_bool_nil, tokFilter_optStr_nil, tokFilter_optEnum_nil, tokFilter_dest_nil, List.append_nil, List.nil_append, tokFilter_optEnum_self]

theorem tokFilter_flags_destination (s : Kaniko) :
    tokFilter "--destination=" (Kaniko.shellFlags s) = destinationTokens s.destination := by
  simp (disch := decide) only [Kaniko.shellFlags, Kaniko.get_shell_part_build_args, Kaniko.get_shell_part_cache, Kaniko.get_shell_part_cache_dir, Kaniko.get_shell_part_cache_repo, Kaniko.get_shell_part_cleanup, Kaniko.get_shell_part_context, Kaniko.get_shell_part_destination, Kaniko.get_shell_part_digest_file, Kaniko.get_shell_part_dockerfile, Kaniko.get_shell_part_force, Kaniko.get_shell_part_insecure, Kaniko.get_shell_part_insecure_pull, Kaniko.get_shell_part_insecure_registry, Kaniko.get_shell_part_no_push, Kaniko.get_shell_part_oci_layout_path, Kaniko.get_shell_part_reproducible, Kaniko.get_shell_part_single_snapshot, Kaniko.get_shell_part_skip_tls_verify, Kaniko.get_shell_part_skip_tls_verify_pull, Kaniko.get_shell_part_skip_tls_verify_registry, Kaniko.get_shell_part_snapshot_mode, Kaniko.get_shell_part_tar_path, Kaniko.get_shell_part_target, Kaniko.get_shell_part_verbosity,
    tokFilter_append, tokFilter_listFlag_nil, tokFilter_bool_nil, tokFilter_optStr_nil, tokFilter_optEnum_nil, tokFilter_dest_nil, List.append_nil, List.nil_append, tokFilter_dest_self]


theorem pySplitNl_ne_nil (l : List Char) : pySplitNl l ≠ [] := by
  induction l with
  | nil => simp [pySplitNl]
  | cons c rest ih =>
    rw [pySplitNl]
    by_cases hc : c = '\n'
    · simp [hc]
    · simp only [if_neg hc]
      cases h : pySplitNl rest with
      | nil => simp
      | cons a t => simp

theorem pyStrip_of_all_space {s : String} (h : ∀ c ∈ s.data, isPySpace c = true) :
    pyStrip s = "" := by
  have hd : s.data.dropWhile isPySpace = [] := List.dropWhile_eq_nil_iff.mpr h
  simp [pyStrip, pyStripList, hd]

theorem parse_logs_length_pos (s : String) : 1 ≤ (parse_logs s).length := by
  rw [parse_logs, List.length_map]
  exact List.length_pos.mpr (pySplitNl_ne_nil _)

theorem parse_logs_all_space {s : String} (h : ∀ c ∈ s.data, isPySpace c = true) :
    parse_logs s = [""] := by
  rw [parse_logs, pyStrip_of_all_space h]
  rfl

theorem getVal_applyEntryPure_self {s : Kaniko} {e : ConfigEntry} {k : ConfigKey}
    {v : Value} (hk : e.dataKey = some k) (hv : e.suppliedVal = some v) :
    (applyEntryPure s e).getVal k = v := by
  cases e <;> first
    | (obtain rfl := Option.some.inj hk
       obtain rfl := Option.some.inj hv
       rfl)
    | (simp [ConfigEntry.dataKey] at hk)

theorem getVal_applyEntryPure_frame {s : Kaniko} {e : ConfigEntry} {k : ConfigKey}
    (h : e.dataKey ≠ some k) : (applyEntryPure s e).getVal k = s.getVal k := by
  cases e <;> cases k <;> first | rfl | (exact absurd rfl h)

theorem extra_applyEntryPure (s : Kaniko) (e : ConfigEntry) :
    (applyEntryPure s e).extra = s.extra := by
  cases e <;> rfl

theorem applyEntry_eq_ok {e : ConfigEntry} (h : e ≠ .shell_command_key) (s : Kaniko) :
    applyEntry s e = .ok (applyEntryPure s e) := by
  cases e <;> first | rfl | (exact absurd rfl h)

theorem configure_eq_ok {kwargs : List ConfigEntry}
    (h : ConfigEntry.shell_command_key ∉ kwargs) (s : Kaniko) :
    Kaniko.configure s kwargs = .ok (kwargs.foldl applyEntryPure s) := by
  induction kwargs generalizing s with
  | nil => rfl
  | cons e rest ih =>
    have he : e ≠ .shell_command_key := fun hh => h (hh ▸ List.mem_cons_self e rest)
    have hrest : ConfigEntry.shell_command_key ∉ rest :=
      fun hh => h (List.mem_cons_of_mem e hh)
    simp [Kaniko.configure, applyEntry_eq_ok he, ih hrest]

theorem getVal_foldl_frame {kwargs : List ConfigEntry} {k : ConfigKey}
    (h : ∀ e ∈ kwargs, e.dataKey ≠ some k) (s : Kaniko) :
    (kwargs.foldl applyEntryPure s).getVal k = s.getVal k := by
  induction kwargs generalizing s with
  | nil => rfl
  | cons e rest ih =>
    rw [List.foldl_cons, ih (fun e' he' => h e' (List.mem_cons_of_mem e he')),
      getVal_applyEntryPure_frame (h e (List.mem_cons_self e rest))]

theorem extra_foldl (kwargs : List ConfigEntry) (s : Kaniko) :
    (kwargs.foldl applyEntryPure s).extra = s.extra := by
  induction kwargs generalizing s with
  | nil => rfl
  | cons e rest ih => rw [List.foldl_cons, ih, extra_applyEntryPure]

theorem getVal_foldl_store {kwargs : List ConfigEntry}
    (hnodup : (kwargs.filterMap ConfigEntry.dataKey).Nodup)
    {e : ConfigEntry} {k : ConfigKey} {v : Value} (he : e ∈ kwargs)
    (hk : e.dataKey = some k) (hv : e.suppliedVal = some v) (s : Kaniko) :
    (kwargs.foldl applyEntryPure s).getVal k = v := by
  induction kwargs generalizing s with
  | nil => cases he
  | cons a rest ih =>
    rw [List.foldl_cons]
    rcases List.mem_cons.mp he with rfl | hmem
    · have hnotin : ∀ e' ∈ rest, e'.dataKey ≠ some k := by
        intro e' he' hk'
        have hfm : (k :: rest.filterMap ConfigEntry.dataKey).Nodup := by
          simpa [List.filterMap_cons, hk] using hnodup
        exact (List.nodup_cons.mp hfm).1 (List.mem_filterMap.mpr ⟨e', he', hk'⟩)
      rw [getVal_foldl_frame hnotin]
      exact getVal_applyEntryPure_self hk hv
    · refine ih ?_ hmem _
      cases ha : a.dataKey with
      | none => simpa [List.filterMap_cons, ha] using hnodup
      | some b =>
        have : (b :: rest.filterMap ConfigEntry.dataKey).Nodup := by
          simpa [List.filterMap_cons, ha] using hnodup
        exact (List.nodup_cons.mp this).2

theorem pyPathJoin_plain (a b : String) (hb : b.data.head? ≠ some '/')
    (h1 : a ≠ "") (h2 : a.data.getLast? ≠ some '/') :
    pyPathJoin a b = a ++ "/" ++ b := by
  rw [pyPathJoin, if_neg hb, if_neg]
  simp [h1, h2]

theorem configPath_standard {s : Kaniko} (h1 : s.kaniko_path ≠ "")
    (h2 : s.kaniko_path.data.getLast? ≠ some '/') :
    Kaniko.configPath s = s.kaniko_path ++ "/.docker/config.json" := by
  rw [Kaniko.configPath, pyPathJoin_plain s.kaniko_path ".docker" (by decide) h1 h2]
  rw [pyPathJoin_plain _ "config.json" (by decide) ?hne ?hlast]
  case hne =>
    intro h
    have := congrArg String.data h
    simp [String.data_append] at this
  case hlast =>
    rw [String.data_append, List.getLast?_append,
      (by decide : (".docker".data.getLast? : Option Char) = some 'r')]
    simp [Option.or]
  · apply String.ext
    simp [String.data_append]

/-- C1: a fresh Kaniko object configured with
`{kaniko_path: "/kaniko/path", build_args: ["1","2","3"], cache: true,
force: true, nonexistent_attribute: true}` has `shell_command` equal to
exactly `["/kaniko/path/executor", "--build-arg=1", "--build-arg=2",
"--build-arg=3", "--cache", "--force"]`, in that order; the unknown key is
ignored and no attribute is created for it. -/
theorem c1_shell_command_exact :
    ∃ s' : Kaniko,
      Kaniko.configure kanikoDefault
        [.kaniko_path "/kaniko/path", .build_args ["1", "2", "3"], .cache true,
         .force true, .unknown "nonexistent_attribute"] = Except.ok s'
      ∧ Kaniko.shell_command s' =
          ["/kaniko/path/executor", "--build-arg=1", "--build-arg=2",
           "--build-arg=3", "--cache", "--force"]
      ∧ ¬ s'.hasAttr "nonexistent_attribute" := by
  refine ⟨_, rfl, ?_, ?_⟩ <;> decide

/-- C9: `_parse_logs` applied to (the decoding of) the raw bytes
`"\nsome\n little\n strings \n"` returns exactly `["some", "little",
"strings"]`: leading/trailing blank entries are removed by the initial strip
and each remaining row is stripped of surrounding whitespace. -/
theorem c9_parse_logs_example :
    parse_logs "\nsome\n little\n strings \n" = ["some", "little", "strings"] := by
  decide

/-- C10: `_parse_logs` always returns at least one element; on input that
decodes to the empty string or whitespace only it returns `[""]` (a
one-element list holding the empty string, not an empty list); and blank
lines interior to the output are kept as empty-string entries, as on
`"a\n\nb"`. -/
theorem c10_parse_logs_shape :
    (∀ s : String, 1 ≤ (parse_logs s).length)
    ∧ (∀ s : String, (∀ c ∈ s.data, isPySpace c = true) → parse_logs s = [""])
    ∧ parse_logs "a\n\nb" = ["a", "", "b"] :=
  ⟨parse_logs_length_pos, fun _ h => parse_logs_all_space h, by decide⟩

/-- Witness for C10 at concrete inputs: the empty string and a
whitespace-only string both parse to `[""]`. -/
theorem c10_parse_logs_shape_witness :
    1 ≤ (parse_logs "").length ∧ parse_logs " \t\n " = [""] ∧
      parse_logs "a\n\nb" = ["a", "", "b"] :=
  ⟨c10_parse_logs_shape.1 "", c10_parse_logs_shape.2.1 " \t\n " (by decide),
   c10_parse_logs_shape.2.2⟩

/-- C2: for every run of `build` whose `configure` step succeeds, a nonzero
process exit code makes `build` raise a `KanikoBuildException` carrying
exactly that exit code and the full parsed log-line sequence as its body,
while exit code 0 makes `build` return that same parsed line sequence and
raise nothing. -/
theorem c2_build_exit_behavior (s : Kaniko) (kwargs : List ConfigEntry) (c : Int)
    (out : String) (s' : Kaniko) (hok : Kaniko.configure s kwargs = Except.ok s') :
    (c ≠ 0 →
      (Kaniko.buildModel s kwargs c out).2 =
          .buildError (mkKanikoBuildException c (parse_logs out))
        ∧ (mkKanikoBuildException c (parse_logs out)).exit_code = c
        ∧ (mkKanikoBuildException c (parse_logs out)).body = parse_logs out)
    ∧ (c = 0 → (Kaniko.buildModel s kwargs c out).2 = .success (parse_logs out)) := by
  constructor
  · intro hc
    exact ⟨by simp [Kaniko.buildModel, hok, hc], rfl, rfl⟩
  · intro hc
    simp [Kaniko.buildModel, hok, hc]

/-- Witness for C2: with no overrides, exit code 7 on output `"x\ny"` raises
the exception with body `["x", "y"]`, and exit code 0 returns `["x", "y"]`. -/
theorem c2_build_exit_behavior_witness :
    (Kaniko.buildModel kanikoDefault [] 7 "x\ny").2 =
        .buildError (mkKanikoBuildException 7 ["x", "y"])
    ∧ (Kaniko.buildModel kanikoDefault [] 0 "x\ny").2 = .success ["x", "y"] :=
  ⟨((c2_build_exit_behavior kanikoDefault [] 7 "x\ny" kanikoDefault rfl).1
      (by decide)).1,
   (c2_build_exit_behavior kanikoDefault [] 0 "x\ny" kanikoDefault rfl).2 rfl⟩

/-- C3 counterexample: the failure raised on nonzero exit does not carry the
message `"process failed with exit code {c}: {joined}"`; at exit code 2 with
parsed lines `["a", "b"]` the message differs from that format (the code
formats `'Kaniko failed with exit code ...'`). -/
theorem c3_message_counterexample :
    (Kaniko.buildModel kanikoDefault [] 2 "a\nb").2 =
        .buildError (mkKanikoBuildException 2 ["a", "b"])
    ∧ (mkKanikoBuildException 2 ["a", "b"]).message ≠
        "process failed with exit code 2: a\nb"
    ∧ (mkKanikoBuildException 2 ["a", "b"]).message =
        "Kaniko failed with exit code 2: a\nb" :=
  ⟨rfl, by decide, rfl⟩

/-- C3 amended: for every exit code `c` and captured output, the failure
raised on nonzero exit carries the human-readable message
`"Kaniko failed with exit code {c}: {parsed lines joined with newlines}"`. -/
theorem c3_message_format (s : Kaniko) (kwargs : List ConfigEntry) (c : Int)
    (out : String) (s' : Kaniko) (hok : Kaniko.configure s kwargs = Except.ok s')
    (hc : c ≠ 0) :
    ∃ e : KanikoBuildException,
      (Kaniko.buildModel s kwargs c out).2 = .buildError e
      ∧ e.message = "Kaniko failed with exit code " ++ toString c ++ ": " ++
          String.intercalate "\n" (parse_logs out) := by
  exact ⟨mkKanikoBuildException c (parse_logs out),
    by simp [Kaniko.buildModel, hok, hc], rfl⟩

/-- Witness for C3 at exit code 5 and output `"ok"`. -/
theorem c3_message_format_witness :
    ∃ e : KanikoBuildException,
      (Kaniko.buildModel kanikoDefault [] 5 "ok").2 = .buildError e
      ∧ e.message = "Kaniko failed with exit code 5: ok" :=
  c3_message_format kanikoDefault [] 5 "ok" kanikoDefault rfl (by decide)

/-- C4 counterexample: with no credentials set, the `auth` field written by
`_make_config` is the base64 of the Python-rendered string `"None:None"`
(`"Tm9uZTpOb25l"`), not the base64 of `"null:null"` (`"bnVsbDpudWxs"`) that
the claim states. -/
theorem c4_auth_counterexample :
    Kaniko.authValue kanikoDefault = b64encode (asciiBytes "None:None")
    ∧ Kaniko.authValue kanikoDefault ≠ b64encode (asciiBytes "null:null")
    ∧ Kaniko.make_config_json kanikoDefault =
        "\x7b\"auths\": \x7b\"null\": \x7b\"auth\": \"Tm9uZTpOb25l\"\x7d\x7d\x7d" :=
  ⟨rfl, by decide, rfl⟩

/-- C4 amended: every run of `build` that passes `configure` performs the
registry-auth write, regardless of the later process exit code, at
`{kaniko_path}/.docker/config.json` with the document
`{"auths": {"<registry-uri>": {"auth": "<base64 of username:password>"}}}`,
and when no credentials were set the auth field is the base64 encoding of
the string `"None:None"` (Python string interpolation of `None`). -/
theorem c4_config_write (s : Kaniko) (kwargs : List ConfigEntry) (c : Int)
    (out : String) (s' : Kaniko) (hok : Kaniko.configure s kwargs = Except.ok s') :
    (Kaniko.buildModel s kwargs c out).1 =
        some ⟨Kaniko.configPath s', Kaniko.make_config_json s'⟩
    ∧ (s'.kaniko_path ≠ "" → s'.kaniko_path.data.getLast? ≠ some '/' →
        Kaniko.configPath s' = s'.kaniko_path ++ "/.docker/config.json")
    ∧ (s'.registry_username = none → s'.registry_password = none →
        Kaniko.authValue s' = b64encode (asciiBytes "None:None")) := by
  refine ⟨?_, fun h1 h2 => configPath_standard h1 h2, fun hu hp => ?_⟩
  · by_cases hc : c = 0 <;> simp [Kaniko.buildModel, hok, hc]
  · simp [Kaniko.authValue, pyStr, hu, hp]

/-- Witness for C4 on a fresh object with no overrides and exit code 0. -/
theorem c4_config_write_witness :
    (Kaniko.buildModel kanikoDefault [] 0 "").1 =
        some ⟨"/kaniko/.docker/config.json",
          "\x7b\"auths\": \x7b\"null\": \x7b\"auth\": \"Tm9uZTpOb25l\"\x7d\x7d\x7d"⟩ := by
  have h := c4_config_write kanikoDefault [] 0 "" kanikoDefault rfl
  rw [h.1, h.2.1 (by decide) (by decide)]
  rfl

/-- C5 counterexample: `context` stored as the empty string is non-null, yet
`shell_command` contains no `--context=` token — the handlers test Python
truthiness (`if self.context:`), not non-nullness, so the claim as stated
fails at this input. -/
theorem c5_nonnull_counterexample :
    ({ kanikoDefault with context := some "" } : Kaniko).context ≠ none
    ∧ tokFilter "--context="
        (Kaniko.shell_command { kanikoDefault with context := some "" }) = [] :=
  ⟨by decide, rfl⟩

/-- C5 amended: for every optional scalar setting (context, cache_dir,
cache_repo, digest_file, dockerfile, oci_layout_path, target, tar_path) the
`--flag=value` token appears among the flag arguments of `shell_command`
exactly when the stored value is truthy — non-null and non-empty — and for
the enum settings (snapshot_mode, verbosity) exactly when the value is set,
rendering the enum's symbolic string form; no other handler ever contributes
a token of these families. -/
theorem c5_optional_scalar_enum_flags (s : Kaniko) :
    Kaniko.shell_command s = Kaniko.executorToken s :: Kaniko.shellFlags s
    ∧ tokFilter "--context=" (Kaniko.shellFlags s) =
        optStrFlagToken "--context=" s.context
    ∧ tokFilter "--cache-dir=" (Kaniko.shellFlags s) =
        optStrFlagToken "--cache-dir=" s.cache_dir
    ∧ tokFilter "--cache-repo=" (Kaniko.shellFlags s) =
        optStrFlagToken "--cache-repo=" s.cache_repo
    ∧ tokFilter "--digest-file=" (Kaniko.shellFlags s) =
        optStrFlagToken "--digest-file=" s.digest_file
    ∧ tokFilter "--dockerfile=" (Kaniko.shellFlags s) =
        optStrFlagToken "--dockerfile=" s.dockerfile
    ∧ tokFilter "--oci-layout-path=" (Kaniko.shellFlags s) =
        optStrFlagToken "--oci-layout-path=" s.oci_layout_path
    ∧ tokFilter "--target=" (Kaniko.shellFlags s) =
        optStrFlagToken "--target=" s.target
    ∧ tokFilter "--tarPath=" (Kaniko.shellFlags s) =
        optStrFlagToken "--tarPath=" s.tar_path
    ∧ tokFilter "--snapshotMode=" (Kaniko.shellFlags s) =
        optEnumFlagToken "--snapshotMode=" (s.snapshot_mode.map KanikoSnapshotMode.value)
    ∧ tokFilter "--verbosity=" (Kaniko.shellFlags s) =
        optEnumFlagToken "--verbosity=" (s.verbosity.map KanikoVerbosity.value) :=
  ⟨rfl, tokFilter_flags_context s, tokFilter_flags_cache_dir s,
   tokFilter_flags_cache_repo s, tokFilter_flags_digest_file s,
   tokFilter_flags_dockerfile s, tokFilter_flags_oci_layout_path s,
   tokFilter_flags_target s, tokFilter_flags_tar_path s,
   tokFilter_flags_snapshot_mode s, tokFilter_flags_verbosity s⟩

/-- C7 counterexample: `destination` holding the scalar value `""` produces
zero `--destination=` tokens, not exactly one — the handler tests Python
truthiness first. -/
theorem c7_destination_counterexample :
    ({ kanikoDefault with destination := .scalar "" } : Kaniko).destination =
        .scalar ""
    ∧ tokFilter "--destination="
        (Kaniko.shell_command { kanikoDefault with destination := .scalar "" }) = [] :=
  ⟨rfl, rfl⟩

/-- C7 amended: a non-empty scalar `destination` yields exactly one
`--destination=value` token; the empty-string scalar yields none; a list of N
elements yields exactly N tokens, one per element, in list order. -/
theorem c7_destination_tokens (s : Kaniko) (v : String) (l : List String) :
    Kaniko.shell_command s = Kaniko.executorToken s :: Kaniko.shellFlags s
    ∧ (s.destination = .scalar v → v ≠ "" →
        tokFilter "--destination=" (Kaniko.shellFlags s) = ["--destination=" ++ v])
    ∧ (s.destination = .scalar "" →
        tokFilter "--destination=" (Kaniko.shellFlags s) = [])
    ∧ (s.destination = .dlist l →
        tokFilter "--destination=" (Kaniko.shellFlags s) =
          l.map (fun d => "--destination=" ++ d)) := by
  have h := tokFilter_flags_destination s
  refine ⟨rfl, fun hd hv => ?_, fun hd => ?_, fun hd => ?_⟩
  · rw [h, hd]
    simp [destinationTokens, hv]
  · rw [h, hd]
    simp [destinationTokens]
  · rw [h, hd]
    by_cases hl : l = []
    · simp [destinationTokens, hl]
    · simp [destinationTokens, hl, listFlagTokens]

/-- Witness for C7: a concrete non-empty scalar and a concrete two-element
list. -/
theorem c7_destination_tokens_witness :
    tokFilter "--destination="
        (Kaniko.shellFlags { kanikoDefault with destination := .scalar "dst" }) =
      ["--destination=dst"]
    ∧ tokFilter "--destination="
        (Kaniko.shellFlags { kanikoDefault with destination := .dlist ["d1", "d2"] }) =
      ["--destination=d1", "--destination=d2"] :=
  ⟨(c7_destination_tokens { kanikoDefault with destination := .scalar "dst" }
      "dst" []).2.1 rfl (by decide),
   (c7_destination_tokens { kanikoDefault with destination := .dlist ["d1", "d2"] }
      "" ["d1", "d2"]).2.2.2 rfl⟩

/-- C8: for each list-valued setting (build_args, insecure_registry,
skip_tls_verify_registry), the flag arguments of `shell_command` contain one
`--flag=value` token per list element, in list order — so an empty list
contributes no tokens and a list of N elements contributes exactly N. -/
theorem c8_list_settings (s : Kaniko) :
    Kaniko.shell_command s = Kaniko.executorToken s :: Kaniko.shellFlags s
    ∧ tokFilter "--build-arg=" (Kaniko.shellFlags s) =
        s.build_args.map (fun a => "--build-arg=" ++ a)
    ∧ tokFilter "--insecure-registry=" (Kaniko.shellFlags s) =
        s.insecure_registry.map (fun a => "--insecure-registry=" ++ a)
    ∧ tokFilter "--skip-tls-verify-registry=" (Kaniko.shellFlags s) =
        s.skip_tls_verify_registry.map (fun a => "--skip-tls-verify-registry=" ++ a) :=
  ⟨rfl, tokFilter_flags_build_args s, tokFilter_flags_insecure_registry s,
   tokFilter_flags_skip_tls_verify_registry s⟩

/-- C6 counterexample: the recognized name `shell_command` is in
`_configure_attribute_names` and its current value (the computed flag list)
is not callable, so `configure({"shell_command": ...})` reaches `setattr` on
the read-only property and raises `AttributeError` — the call neither stores
the supplied value nor completes, falsifying the claim for this mapping. -/
theorem c6_configure_counterexample :
    Kaniko.configure kanikoDefault [ConfigEntry.shell_command_key] =
        Except.error "AttributeError: cannot set attribute shell_command"
    ∧ "shell_command" ∈ configureAttributeNames :=
  ⟨rfl, by decide⟩

/-- C6 amended: for every mapping that does not name the read-only
`shell_command` property (and whose unknown names are genuinely not class
attributes, with distinct data keys): `configure` completes without error,
every recognized data key's stored value equals the supplied value, the
callable names `build`/`configure` and every unrecognized key are skipped
silently, and no attribute is created for unrecognized keys. -/
theorem c6_configure_stores_and_skips (s : Kaniko) (kwargs : List ConfigEntry)
    (hshell : ConfigEntry.shell_command_key ∉ kwargs)
    (hwf : ∀ n, ConfigEntry.unknown n ∈ kwargs → n ∉ kanikoClassAttrNames)
    (hnodup : (kwargs.filterMap ConfigEntry.dataKey).Nodup) :
    ∃ s' : Kaniko, Kaniko.configure s kwargs = Except.ok s'
      ∧ (∀ e ∈ kwargs, ∀ k v, e.dataKey = some k → e.suppliedVal = some v →
          s'.getVal k = v)
      ∧ s'.extra = s.extra
      ∧ (∀ n, ConfigEntry.unknown n ∈ kwargs → ¬ s.hasAttr n → ¬ s'.hasAttr n) := by
  refine ⟨kwargs.foldl applyEntryPure s, configure_eq_ok hshell s,
    fun e he k v hk hv => getVal_foldl_store hnodup he hk hv s,
    extra_foldl kwargs s, fun n hn hno => ?_⟩
  simpa [Kaniko.hasAttr, extra_foldl] using hno

/-- Witness for C6: configuring `context`, `cache` and an unrecognized key on
a fresh object stores the two recognized values, skips the unknown key
silently, and creates no attribute for it. -/
theorem c6_configure_stores_and_skips_witness :
    ∃ s' : Kaniko, Kaniko.configure kanikoDefault
        [ConfigEntry.context (some "ctx"), ConfigEntry.cache true,
         ConfigEntry.unknown "nonexistent_attribute"] = Except.ok s'
      ∧ s'.getVal .context = .ostr (some "ctx")
      ∧ s'.getVal .cache = .vbool true
      ∧ s'.extra = []
      ∧ ¬ s'.hasAttr "nonexistent_attribute" := by
  obtain ⟨s', h1, h2, h3, h4⟩ := c6_configure_stores_and_skips kanikoDefault
    [ConfigEntry.context (some "ctx"), ConfigEntry.cache true,
     ConfigEntry.unknown "nonexistent_attribute"]
    (by decide)
    (by intro n hn
        simp only [List.mem_cons, List.mem_singleton, List.not_mem_nil,
          or_false] at hn
        rcases hn with hn | hn | hn <;> cases hn <;> decide)
    (by decide)
  exact ⟨s', h1,
    h2 (ConfigEntry.context (some "ctx")) (by simp) ConfigKey.context
      (Value.ostr (some "ctx")) rfl rfl,
    h2 (ConfigEntry.cache true) (by simp) ConfigKey.cache (Value.vbool true)
      rfl rfl,
    h3, h4 "nonexistent_attribute" (by simp) (by decide)⟩
